import Mathlib

/-!
# Verification of the anime-tracking backend persistence layer

Shallow embedding of `src/server.js` (an Express backend persisting three
JSON collections: custom anime list, episodes, scheduled releases).  The
source file contains three concatenated revisions of the server; where a
claim cites a specific revision we embed that revision's handler.  Names
ending in `_v3` embed the third revision (lines 2648-3616 of the source);
unsuffixed names embed the first revision (lines 1-1047).

External effects are made explicit:
* outcomes of AniList provider calls are injected as `fetchOk : Bool`
  (plus the formatted `title`/`thumbnail` strings where the handler stores
  them);
* outcomes of `writeData` calls are injected as booleans in source order;
* `Date.now().toString()` / `new Date().toISOString()` values are injected
  as `nowId` / `nowIso` strings;
* the `animeCache` Map is modelled by its key set (a `List String`), since
  no claim inspects cached values, only membership and emptiness.
-/

/-! ## Data model

Record shapes follow the object literals constructed by the handlers. -/

/-- An entry of the custom anime list.  The first revision's `POST
/api/anime` pushes `{ id, hasTagalogDub }`; the third revision pushes
`{ id }` only, hence `hasTagalogDub` is optional. -/
structure AnimeEntry where
  id : String
  hasTagalogDub : Option Bool := none
deriving Repr, DecidableEq

/-- An episode record as built by the first revision's `POST /api/episodes`
(source lines 586-595). -/
structure Episode where
  id : String
  animeId : String
  title : String
  number : Int
  iframeSrc : String
  server2Url : String
  hasTagalogDub : Bool
  dateAdded : String
deriving Repr, DecidableEq

/-- A scheduled release as built by the first revision's `POST /api/scheduled`
(source lines 651-660). -/
structure SchedV1 where
  id : String
  animeId : String
  title : String
  thumbnail : String
  releaseDate : String
  notes : String
  hasTagalogDub : Bool
  dateAdded : String
deriving Repr, DecidableEq

/-- A scheduled entry as built by the third revision's `POST /api/scheduled`
(source lines 3291-3299); note the different field names (`anilistId`,
`scheduledDate`, `customNote`). -/
structure SchedV3 where
  id : String
  anilistId : String
  title : String
  thumbnail : String
  scheduledDate : String
  customNote : String
  dateAdded : String
deriving Repr, DecidableEq

/-- The first revision's in-memory server state: the three collections
(`customAnimeList`, `episodes`, `scheduledAnime`, source lines 249-251) and
the key set of the `animeCache` Map (line 246). -/
structure ServerState where
  customAnimeList : List AnimeEntry
  episodes : List Episode
  scheduledAnime : List SchedV1
  animeCache : List String
deriving Repr, DecidableEq

/-- Models `Map.set` on the cache, modelled on the key set: adds the key if absent. -/
def insertKey (keys : List String) (k : String) : List String :=
  if keys.contains k then keys else keys ++ [k]

/-! ## JavaScript helpers

`a || b` on request fields: a missing field, the empty string, and the
number `0` are falsy and select the default. -/

/-- Models `a || b` for an optional numeric request field (`0` is falsy in JS). -/
def jsOrNum : Option Int → Int → Int
  | some n, d => if n = 0 then d else n
  | none, d => d

/-- Models `a || b` for an optional string request field (`""` is falsy in JS). -/
def jsOrStr : Option String → String → String
  | some s, d => if s = "" then d else s
  | none, d => d

/-! ## Store: `writeData`

The first revision (source lines 50-82) copies the target to `.backup`,
writes the serialized data to `.temp`, then renames `.temp` over the
target; on any error it copies `.backup` back over the target and returns
`false`.  The third revision (source lines 2698-2706) writes the target in
place and returns `false` on error.

The file system around one collection file is three optional contents; the
serialized data is an abstract `String`.  Failure injection: `WritePhase`
selects where the first revision's sequence of `fs` calls throws.  A
failure while the backup copy itself is being taken is outside this model
(the source would then restore whatever `.backup` happens to hold). -/

structure FileState where
  main : Option String
  backup : Option String
  temp : Option String
deriving Repr, DecidableEq

/-- Failure injection point for the first revision's `writeData`:
run to completion, throw inside `fs.writeFileSync(tempPath, ...)` (leaving
a partial temp file), or throw inside `fs.renameSync`. -/
inductive WritePhase where
  | complete
  | failAtTempWrite (frag : String)
  | failAtRename
deriving Repr, DecidableEq

/-- The catch-block recovery of the first revision's `writeData` (source
lines 70-78): if a `.backup` exists, copy it over the target. -/
def restoreFromBackup (fs : FileState) : FileState :=
  match fs.backup with
  | some b => { fs with main := some b }
  | none => fs

/-- First revision `writeData` (source lines 50-82): backup, write temp,
rename temp over target; on error restore from backup and return `false`. -/
def writeData (fs : FileState) (content : String) (phase : WritePhase) :
    FileState × Bool :=
  let fs1 := if fs.main.isSome then { fs with backup := fs.main } else fs
  match phase with
  | .complete =>
      ({ fs1 with temp := none, main := some content }, true)
  | .failAtTempWrite p =>
      (restoreFromBackup { fs1 with temp := some p }, false)
  | .failAtRename =>
      (restoreFromBackup { fs1 with temp := some content }, false)

/-- Third revision `writeData` (source lines 2698-2706): a single in-place
`fs.writeFileSync`.  `failAt = some k` models the write erroring after `k`
characters have been written (`writeFileSync` truncates the file first, so
the target then holds a prefix of the new content); the error is caught and
`false` returned. -/
def writeData_v3 (fs : FileState) (content : String) (failAt : Option Nat) :
    FileState × Bool :=
  match failAt with
  | none => ({ fs with main := some content }, true)
  | some k => ({ fs with main := some (content.take k) }, false)

/-! ## Coordinator: `addAnime` (`POST /api/anime`)

First revision, source lines 515-566.  Request fields `anilistId` (absent
or empty string is falsy and rejected; otherwise already stringified) and
`hasTagalogDub` (the code stores `hasTagalogDub === true`, a `Bool`). -/

inductive AddAnimeResult where
  /-- HTTP 400 `AniList ID is required` -/
  | missingId
  /-- HTTP 400 `Anime already exists in the list` -/
  | duplicate
  /-- HTTP 400/500 from the catch block after the AniList call threw -/
  | fetchError
  /-- HTTP 201 with the formatted anime detail -/
  | created
  /-- HTTP 500 `Failed to add anime to list` (entry already pushed in memory) -/
  | saveFailed
deriving Repr, DecidableEq

/-- First revision `POST /api/anime`: reject a missing id, reject an id
already in `customAnimeList`, call AniList (outcome `fetchOk`), push
`{ id, hasTagalogDub }`, persist (outcome `writeOk`); on persist success
cache the formatted detail under the id.  On persist failure the pushed
entry is not rolled back (source line 543 precedes the `writeData` call). -/
def addAnime (st : ServerState) (anilistId : Option String)
    (hasTagalogDub : Bool) (fetchOk writeOk : Bool) :
    ServerState × AddAnimeResult :=
  match anilistId with
  | none => (st, .missingId)
  | some aid =>
    if aid = "" then (st, .missingId)
    else if st.customAnimeList.any (fun a => a.id == aid) then (st, .duplicate)
    else if !fetchOk then (st, .fetchError)
    else
      let newAnimeEntry : AnimeEntry := { id := aid, hasTagalogDub := some hasTagalogDub }
      let st1 := { st with customAnimeList := st.customAnimeList ++ [newAnimeEntry] }
      if writeOk then
        ({ st1 with animeCache := insertKey st1.animeCache aid }, .created)
      else (st1, .saveFailed)

/-- One `addAnime` call's inputs, for reasoning about call sequences. -/
structure AddAnimeCall where
  anilistId : Option String
  hasTagalogDub : Bool
  fetchOk : Bool
  writeOk : Bool
deriving Repr, DecidableEq

/-- Run a sequence of `addAnime` calls. -/
def runAddAnime (st : ServerState) : List AddAnimeCall → ServerState
  | [] => st
  | c :: cs => runAddAnime (addAnime st c.anilistId c.hasTagalogDub c.fetchOk c.writeOk).1 cs

/-- Third revision `POST /api/anime` result (source lines 3342-3411).  A
second add of a tracked id is not an error there: the handler refreshes and
returns the entry (200), or falls back to the cached detail. -/
inductive AddAnimeV3Result where
  /-- HTTP 400 `AniList ID is required` -/
  | missingId
  /-- HTTP 200: id already in the library, fresh detail fetched and returned -/
  | okExistingRefreshed
  /-- HTTP 200: id already in the library, AniList failed, cached detail returned -/
  | okExistingCached
  /-- HTTP 400 `Failed to update anime details`: already in library, AniList
  failed, nothing cached -/
  | updateFailed
  /-- HTTP 201: new id added -/
  | created
  /-- HTTP 500 `Failed to add anime to list` -/
  | saveFailed
  /-- HTTP 400 `Invalid AniList ID or API error` -/
  | fetchError
deriving Repr, DecidableEq

/-- Whether the third revision's handler answered with a 2xx response. -/
def AddAnimeV3Result.isSuccess : AddAnimeV3Result → Bool
  | .okExistingRefreshed => true
  | .okExistingCached => true
  | .created => true
  | _ => false

/-- Third revision `POST /api/anime` (source lines 3342-3411), over the
anime list read from disk and the cache key set.  For an id already in the
list the handler never reports a duplicate error: it returns the (refreshed
or cached) entry without touching the list. -/
def addAnime_v3 (animeList : List AnimeEntry) (cacheKeys : List String)
    (anilistId : Option String) (fetchOk writeOk : Bool) :
    List AnimeEntry × List String × AddAnimeV3Result :=
  match anilistId with
  | none => (animeList, cacheKeys, .missingId)
  | some aid =>
    if aid = "" then (animeList, cacheKeys, .missingId)
    else if animeList.any (fun a => a.id == aid) then
      if fetchOk then (animeList, insertKey cacheKeys aid, .okExistingRefreshed)
      else if cacheKeys.contains aid then (animeList, cacheKeys, .okExistingCached)
      else (animeList, cacheKeys, .updateFailed)
    else if !fetchOk then (animeList, cacheKeys, .fetchError)
    else
      let animeList1 := animeList ++ [{ id := aid }]
      if writeOk then (animeList1, insertKey cacheKeys aid, .created)
      else (animeList, cacheKeys, .saveFailed)

/-! ## Coordinator: `addEpisode` (`POST /api/episodes`)

First revision, source lines 569-621. -/

/-- Models `Math.max` over a list of numbers; only applied to nonempty lists in
the source (`existingEpisodes.length > 0` guards it, line 579). -/
def listMax : List Int → Int
  | [] => 0
  | x :: xs => xs.foldl max x

/-- The episode number assigned by `POST /api/episodes` (source lines
578-581): `req.body.number || (existing.length > 0 ? Math.max(...) + 1 : 1)`
over the episodes whose `animeId` matches the request. -/
def nextEpisodeNumber (episodes : List Episode) (animeId : String)
    (reqNumber : Option Int) : Int :=
  let existingEpisodes := episodes.filter (fun e => e.animeId == animeId)
  jsOrNum reqNumber
    (if existingEpisodes.length > 0 then
      listMax (existingEpisodes.map (fun e => e.number)) + 1
    else 1)

/-- Request body of `POST /api/episodes`.  `hasTagalogDub` models the
result of the code's `req.body.hasTagalogDub === true`. -/
structure EpisodeReq where
  animeId : String
  title : Option String
  number : Option Int
  iframeSrc : Option String
  server2Url : Option String
  hasTagalogDub : Bool
deriving Repr, DecidableEq

inductive AddEpisodeResult where
  /-- HTTP 404 `Anime not found in our list` -/
  | notFound
  /-- HTTP 201 with the new episode -/
  | created (e : Episode)
  /-- HTTP 500 `Failed to add episode` (episode already pushed in memory) -/
  | saveFailed
deriving Repr, DecidableEq

/-- Which collection files a handler wrote successfully. -/
inductive FileTag where
  | customAnimeFile
  | episodesFile
  | scheduledAnimeFile
deriving Repr, DecidableEq

/-- Models `customAnimeList[findIndex(a => a.id === aid)].hasTagalogDub = true`:
set the flag on the first entry with the given id. -/
def setDubTrue : List AnimeEntry → String → List AnimeEntry
  | [], _ => []
  | a :: rest, aid =>
    if a.id == aid then { a with hasTagalogDub := some true } :: rest
    else a :: setDubTrue rest aid

/-- First revision `POST /api/episodes` (source lines 569-621): 404 if the
anime is untracked; otherwise build the episode (auto number, auto title,
link fields defaulting to `""`) and push it; persist the episodes file
(outcome `wEp`).  On success, if the new episode has the Tagalog-dub flag,
also set the parent anime's flag, persist the anime file (outcome `wAnime`,
its return value ignored by the source), and update the cache entry (key
set unchanged).  No missing-link or duplicate-number validation exists in
the source.  Returns the new state, the response, and the tags of the
`writeData` calls that succeeded. -/
def addEpisode (st : ServerState) (req : EpisodeReq) (nowId nowIso : String)
    (wEp wAnime : Bool) : ServerState × AddEpisodeResult × List FileTag :=
  if !(st.customAnimeList.any (fun a => a.id == req.animeId)) then
    (st, .notFound, [])
  else
    let n := nextEpisodeNumber st.episodes req.animeId req.number
    let episodeTitle := jsOrStr req.title ("Episode " ++ toString n)
    let newEpisode : Episode :=
      { id := nowId, animeId := req.animeId, title := episodeTitle, number := n,
        iframeSrc := jsOrStr req.iframeSrc "", server2Url := jsOrStr req.server2Url "",
        hasTagalogDub := req.hasTagalogDub, dateAdded := nowIso }
    let st1 := { st with episodes := st.episodes ++ [newEpisode] }
    if wEp then
      if req.hasTagalogDub then
        let st2 := { st1 with customAnimeList := setDubTrue st1.customAnimeList req.animeId }
        (st2, .created newEpisode,
          .episodesFile :: if wAnime then [.customAnimeFile] else [])
      else (st1, .created newEpisode, [.episodesFile])
    else (st1, .saveFailed, [])

/-! ## Coordinator: `removeAnime` (`DELETE /api/anime/:id`)

First revision, source lines 783-808; third revision, lines 3414-3433. -/

inductive RemoveResult where
  /-- HTTP 200 `{ message: 'Anime and associated data removed successfully' }` -/
  | ok
  /-- HTTP 500 `{ error: 'Failed to remove anime' }` -/
  | failed
deriving Repr, DecidableEq

/-- First revision `DELETE /api/anime/:id` (source lines 783-808): filter
the id out of all three collections and the cache, unconditionally — the
handler never checks whether the id was tracked — then persist all three
files; success iff every write succeeded (`&&` short-circuits, but the
in-memory state is already mutated either way). -/
def removeAnime (st : ServerState) (animeId : String) (w1 w2 w3 : Bool) :
    ServerState × RemoveResult :=
  let st' : ServerState :=
    { customAnimeList := st.customAnimeList.filter (fun a => !(a.id == animeId)),
      episodes := st.episodes.filter (fun e => !(e.animeId == animeId)),
      scheduledAnime := st.scheduledAnime.filter (fun s => !(s.animeId == animeId)),
      animeCache := st.animeCache.filter (fun k => !(k == animeId)) }
  (st', if w1 && w2 && w3 then .ok else .failed)

/-- The JSON body answered by the first revision's `DELETE /api/anime/:id`
(source lines 804 and 806), as a field lookup: it carries a `message` or an
`error`, and no episode count of any kind. -/
def removeAnimeResponse (r : RemoveResult) (field : String) : Option String :=
  match r with
  | .ok => if field = "message" then some "Anime and associated data removed successfully" else none
  | .failed => if field = "error" then some "Failed to remove anime" else none

/-- The third revision's full persisted state: the three collection files
(the third revision keeps no in-memory collections). -/
structure StateV3 where
  customAnimeList : List AnimeEntry
  episodes : List Episode
  scheduledAnime : List SchedV3
deriving Repr, DecidableEq

/-- Third revision `DELETE /api/anime/:id` (source lines 3414-3433): reads
and filters only `custom_anime.json` and `episodes.json`; the scheduled
file is neither read nor written by this handler, so on disk it stays as it
was.  No not-found check either.  The filtered lists are local variables,
so a file's content only changes when its `writeData` succeeds (`&&`
short-circuits: the episodes write is attempted only after the anime write
succeeded). -/
def removeAnime_v3 (st : StateV3) (animeId : String) (w1 w2 : Bool) :
    StateV3 × RemoveResult :=
  let st' : StateV3 :=
    { customAnimeList :=
        if w1 then st.customAnimeList.filter (fun a => !(a.id == animeId))
        else st.customAnimeList,
      episodes :=
        if w1 && w2 then st.episodes.filter (fun e => !(e.animeId == animeId))
        else st.episodes,
      scheduledAnime := st.scheduledAnime }
  (st', if w1 && w2 then .ok else .failed)

/-! ## Scheduled releases (`POST /api/scheduled`, `PUT /api/scheduled/:id`)

First revision, source lines 624-679 and 721-747; third revision, lines
3253-3319.  Whether `new Date(s)` parses (`!isNaN(...getTime())`) is
injected as `dateValid`; the formatted AniList `title`/`thumbnail` are
injected alongside `fetchOk`. -/

inductive SchedPostResult where
  /-- HTTP 400: missing id, missing date, invalid date, or AniList failure -/
  | badRequest
  /-- HTTP 201 with the new/updated entry -/
  | created
  /-- HTTP 500 write failure -/
  | saveFailed
deriving Repr, DecidableEq

/-- First revision `POST /api/scheduled` (source lines 624-679): after the
guards it always pushes a brand-new entry — there is no lookup of an
existing entry for the same `anilistId`, and no comparison of the date with
the current time. -/
def postScheduled (st : ServerState) (anilistId releaseDate : Option String)
    (notes : Option String) (hasTagalogDub : Bool) (dateValid fetchOk : Bool)
    (title thumbnail nowId nowIso : String) (writeOk : Bool) :
    ServerState × SchedPostResult :=
  match anilistId with
  | none => (st, .badRequest)
  | some aid =>
    if aid = "" then (st, .badRequest)
    else match releaseDate with
    | none => (st, .badRequest)
    | some rd =>
      if rd = "" then (st, .badRequest)
      else if !dateValid then (st, .badRequest)
      else if !fetchOk then (st, .badRequest)
      else
        let newScheduledAnime : SchedV1 :=
          { id := nowId, animeId := aid, title := title, thumbnail := thumbnail,
            releaseDate := rd, notes := jsOrStr notes "",
            hasTagalogDub := hasTagalogDub, dateAdded := nowIso }
        let st1 := { st with scheduledAnime := st.scheduledAnime ++ [newScheduledAnime] }
        (st1, if writeOk then .created else .saveFailed)

/-- Models `scheduledAnime[findIndex(a => a.id === targetId)] = entry`: replace
the first entry whose `id` matches. -/
def replaceFirstById (l : List SchedV3) (targetId : String) (entry : SchedV3) :
    List SchedV3 :=
  match l with
  | [] => []
  | s :: rest =>
    if s.id == targetId then entry :: rest
    else s :: replaceFirstById rest targetId entry

/-- Third revision `POST /api/scheduled` (source lines 3253-3319): after
the guards, look up an existing entry with the same `anilistId`; build the
new entry reusing the existing entry's `id` (else `Date.now()`); replace
the existing entry in place, or push.  The mutated list is a local variable
read from disk, so it is only persisted when the write succeeds. -/
def postScheduled_v3 (scheduled : List SchedV3)
    (anilistId scheduledDate customNote : Option String)
    (dateValid fetchOk : Bool) (title thumbnail nowId nowIso : String)
    (writeOk : Bool) : List SchedV3 × SchedPostResult :=
  match anilistId with
  | none => (scheduled, .badRequest)
  | some aid =>
    if aid = "" then (scheduled, .badRequest)
    else match scheduledDate with
    | none => (scheduled, .badRequest)
    | some sd =>
      if sd = "" then (scheduled, .badRequest)
      else if !dateValid then (scheduled, .badRequest)
      else if !fetchOk then (scheduled, .badRequest)
      else
        let existingEntry := scheduled.find? (fun a => a.anilistId == aid)
        let newScheduledEntry : SchedV3 :=
          { id := match existingEntry with | some e => e.id | none => nowId,
            anilistId := aid, title := title, thumbnail := thumbnail,
            scheduledDate := sd, customNote := jsOrStr customNote "",
            dateAdded := nowIso }
        let scheduled' :=
          match existingEntry with
          | some e => replaceFirstById scheduled e.id newScheduledEntry
          | none => scheduled ++ [newScheduledEntry]
        if writeOk then (scheduled', .created) else (scheduled, .saveFailed)

/-! ## Export / import (`GET /api/export`, `POST /api/import`)

First revision, source lines 873-928. -/

/-- The export payload of `GET /api/export` (source lines 874-880). -/
structure ExportData where
  anime : List AnimeEntry
  episodes : List Episode
  scheduled : List SchedV1
  exportDate : String
  exportVersion : String
deriving Repr, DecidableEq

/-- Models `GET /api/export` (source lines 873-883): bundle the three in-memory
collections with a timestamp and version tag. -/
def exportAll (st : ServerState) (nowIso : String) : ExportData :=
  { anime := st.customAnimeList, episodes := st.episodes,
    scheduled := st.scheduledAnime, exportDate := nowIso,
    exportVersion := "1.1" }

inductive ImportResult where
  /-- HTTP 200 `Import successful` with the three collection lengths -/
  | ok (animeCount episodesCount scheduledCount : Nat)
  /-- HTTP 500 `Failed to write imported data to disk` (in-memory collections
  already replaced and cache already cleared) -/
  | writeFailed
deriving Repr, DecidableEq

/-- Models `POST /api/import` (source lines 886-928): the `Array.isArray` guards
hold by typing here; the three in-memory collections are wholesale replaced
by the payload's arrays, the cache is cleared, the three files are written
(success iff all three writes succeed; `&&` short-circuits but the
in-memory replacement has already happened). -/
def importAll (_st : ServerState) (d : ExportData) (w1 w2 w3 : Bool) :
    ServerState × ImportResult :=
  let st' : ServerState :=
    { customAnimeList := d.anime, episodes := d.episodes,
      scheduledAnime := d.scheduled, animeCache := [] }
  (st', if w1 && w2 && w3 then
          .ok d.anime.length d.episodes.length d.scheduled.length
        else .writeFailed)

/-! ## Episode update (`PUT /api/episodes/:id`)

First revision, source lines 682-719.  The handler manipulates the episode
as an untyped JavaScript object (`{ ...old, ...patch, id }`), so here
records are field-lookup functions. -/

/-- A JavaScript object field value. -/
inductive JVal where
  | str (s : String)
  | num (n : Int)
  | jbool (b : Bool)
  | jnull
deriving Repr, DecidableEq

/-- A JavaScript object as a field-lookup function (`none` = field absent). -/
def JsObj := String → Option JVal

/-- Models `{ ...o, ...p }`: fields of `p` win, remaining fields come from `o`. -/
def spreadTwo (o p : JsObj) : JsObj := fun k =>
  match p k with
  | some v => some v
  | none => o k

/-- Models `{ ..., id: idv }`: force the `id` field after the spread. -/
def withId (o : JsObj) (idv : String) : JsObj := fun k =>
  if k = "id" then some (.str idv) else o k

/-- The merge the first revision's `PUT /api/episodes/:id` performs (source
lines 690-694): `{ ...episodes[i], ...req.body, id: episodeId }`. -/
def mergePatch (old patch : JsObj) (episodeId : String) : JsObj :=
  withId (spreadTwo old patch) episodeId

/-- Models `episodes.findIndex(e => e.id === episodeId)` followed by in-place
replacement with the merged record: replace the first element whose `id`
field is the given string; `none` models the 404 branch (index `-1`).
Returns the updated list and the merged record the handler responds with. -/
def updateEpisodeById (eps : List JsObj) (episodeId : String) (patch : JsObj) :
    Option (List JsObj × JsObj) :=
  match eps with
  | [] => none
  | e :: rest =>
    if e "id" == some (.str episodeId) then
      let merged := mergePatch e patch episodeId
      some (merged :: rest, merged)
    else
      match updateEpisodeById rest episodeId patch with
      | none => none
      | some (rest', m) => some (e :: rest', m)

/-- Result of the full `PUT /api/episodes/:id` handler (the `none` case of
`putEpisode` is the 404). -/
structure PutEpisodeOutcome where
  customAnimeList : List AnimeEntry
  episodes : List JsObj
  record : JsObj
  /-- whether the final `writeData(EPISODES_FILE, ...)` succeeded (200 vs 500) -/
  saved : Bool
  /-- whether the dub-propagation branch ran (it calls
  `writeData(CUSTOM_ANIME_FILE, ...)` and updates the parent anime) -/
  dubPropagated : Bool

/-- First revision `PUT /api/episodes/:id` (source lines 682-719): find the
episode (404 if absent), overwrite it with the merge, then — quoting the
source comment, "Check if this is setting Tagalog dub for the first time" —
test `req.body.hasTagalogDub === true && episodes[i].hasTagalogDub !== true`.
The second conjunct reads the already-merged record, not the old one, so
the parent-anime update it guards is unreachable.  Finally persist the
episodes file (outcome `wEp`). -/
def putEpisode (animeList : List AnimeEntry) (eps : List JsObj)
    (episodeId : String) (patch : JsObj) (wEp : Bool) :
    Option PutEpisodeOutcome :=
  match updateEpisodeById eps episodeId patch with
  | none => none
  | some (eps', merged) =>
    let dubCond :=
      patch "hasTagalogDub" == some (.jbool true)
        && !(merged "hasTagalogDub" == some (.jbool true))
    let animeList' :=
      if dubCond then
        match merged "animeId" with
        | some (.str aid) => setDubTrue animeList aid
        | _ => animeList
      else animeList
    some { customAnimeList := animeList', episodes := eps', record := merged,
           saved := wEp, dubPropagated := dubCond }

/-! ## Helper lemmas -/

theorem le_foldl_max_init (a : Int) (l : List Int) : a ≤ l.foldl max a := by
  induction l generalizing a with
  | nil => exact le_refl a
  | cons x xs ih => exact le_trans (le_max_left a x) (ih (max a x))

theorem foldl_max_mem (a : Int) (l : List Int) :
    l.foldl max a = a ∨ l.foldl max a ∈ l := by
  induction l generalizing a with
  | nil => exact Or.inl rfl
  | cons x xs ih =>
    rcases ih (max a x) with h | h
    · rcases max_choice a x with hm | hm
      · exact Or.inl (by rw [List.foldl_cons, h, hm])
      · exact Or.inr (by rw [List.foldl_cons, h, hm]; exact List.mem_cons_self x xs)
    · exact Or.inr (List.mem_cons_of_mem x h)

theorem le_foldl_max (a x : Int) (l : List Int) (hx : x ∈ l) :
    x ≤ l.foldl max a := by
  induction l generalizing a with
  | nil => cases hx
  | cons y ys ih =>
    rcases List.mem_cons.mp hx with h | h
    · subst h
      exact le_trans (le_max_right a x) (le_foldl_max_init (max a x) ys)
    · exact ih (max a y) h

theorem listMax_mem (l : List Int) (h : l ≠ []) : listMax l ∈ l := by
  match l with
  | [] => exact absurd rfl h
  | y :: ys =>
    rcases foldl_max_mem y ys with h' | h'
    · rw [listMax, h']; exact List.mem_cons_self y ys
    · exact List.mem_cons_of_mem y h'

theorem le_listMax (l : List Int) (x : Int) (hx : x ∈ l) : x ≤ listMax l := by
  match l with
  | [] => cases hx
  | y :: ys =>
    rcases List.mem_cons.mp hx with h | h
    · subst h; exact le_foldl_max_init x ys
    · exact le_foldl_max y x ys h

/-- A filtered-out predicate counts zero. -/
theorem countP_filter_not {α : Type} (l : List α) (p : α → Bool) :
    (l.filter fun x => !p x).countP p = 0 := by
  rw [List.countP_eq_zero]
  intro a ha
  have h := (List.mem_filter.mp ha).2
  simp only [Bool.not_eq_true'] at h
  simp [h]

/-- Splitting a list's length into the kept and dropped parts of a filter. -/
theorem length_filter_not_add_countP {α : Type} (l : List α) (p : α → Bool) :
    l.length = (l.filter fun x => !p x).length + l.countP p := by
  induction l with
  | nil => rfl
  | cons a l ih =>
    cases hpa : p a <;>
      simp [List.filter_cons, List.countP_cons, hpa, ih] <;> omega

/-- The episode number assigned when the request carries no explicit
`number` is `max + 1` over the anime's existing numbers, or `1` if there
are none. -/
theorem nextEpisodeNumber_spec (episodes : List Episode) (aid : String) :
    (((episodes.filter fun e => e.animeId == aid).map fun e => e.number) = [] →
      nextEpisodeNumber episodes aid none = 1) ∧
    (((episodes.filter fun e => e.animeId == aid).map fun e => e.number) ≠ [] →
      ∃ m, m ∈ ((episodes.filter fun e => e.animeId == aid).map fun e => e.number) ∧
        (∀ x ∈ ((episodes.filter fun e => e.animeId == aid).map fun e => e.number), x ≤ m) ∧
        nextEpisodeNumber episodes aid none = m + 1) := by
  unfold nextEpisodeNumber jsOrNum
  constructor
  · intro h
    have hfil : (episodes.filter fun e => e.animeId == aid) = [] :=
      List.map_eq_nil_iff.mp h
    simp [hfil]
  · intro h
    have hfil : (episodes.filter fun e => e.animeId == aid) ≠ [] := by
      intro hc; exact h (by rw [hc]; rfl)
    have hlen : 0 < (episodes.filter fun e => e.animeId == aid).length :=
      List.length_pos.mpr hfil
    refine ⟨listMax ((episodes.filter fun e => e.animeId == aid).map fun e => e.number),
      listMax_mem _ h, fun x hx => le_listMax _ x hx, ?_⟩
    simp [hlen]

/-! ## Claim theorems -/

/-- C8 (confirmed).  For every `addEpisode` request without an explicit
number (`POST /api/episodes`, first revision lines 569-597), the episode
the handler creates is numbered `max(existing numbers for that animeId) + 1`,
and `1` when that anime has no episodes. -/
theorem addEpisode_auto_number (st : ServerState) (req : EpisodeReq)
    (nowId nowIso : String) (wEp wAnime : Bool)
    (htracked : (st.customAnimeList.any fun a => a.id == req.animeId) = true)
    (hnum : req.number = none) (hwEp : wEp = true) :
    ∃ ep, (addEpisode st req nowId nowIso wEp wAnime).2.1 = .created ep ∧
      (((st.episodes.filter fun e => e.animeId == req.animeId).map fun e => e.number) = [] →
        ep.number = 1) ∧
      (((st.episodes.filter fun e => e.animeId == req.animeId).map fun e => e.number) ≠ [] →
        ∃ m, m ∈ ((st.episodes.filter fun e => e.animeId == req.animeId).map fun e => e.number) ∧
          (∀ x ∈ ((st.episodes.filter fun e => e.animeId == req.animeId).map fun e => e.number),
            x ≤ m) ∧
          ep.number = m + 1) := by
  subst hwEp
  have hres : (addEpisode st req nowId nowIso true wAnime).2.1 =
      .created
        { id := nowId, animeId := req.animeId,
          title := jsOrStr req.title
            ("Episode " ++ toString (nextEpisodeNumber st.episodes req.animeId req.number)),
          number := nextEpisodeNumber st.episodes req.animeId req.number,
          iframeSrc := jsOrStr req.iframeSrc "",
          server2Url := jsOrStr req.server2Url "",
          hasTagalogDub := req.hasTagalogDub, dateAdded := nowIso } := by
    unfold addEpisode
    rw [htracked]
    rcases Bool.eq_false_or_eq_true req.hasTagalogDub with hd | hd <;> simp [hd]
  rw [hnum] at hres
  exact ⟨_, hres, (nextEpisodeNumber_spec st.episodes req.animeId).1,
    (nextEpisodeNumber_spec st.episodes req.animeId).2⟩

/-- Fixture for the C8 witness: one tracked anime with episodes numbered
`{1, 2, 3}` (the spec's own example). -/
def stC8 : ServerState :=
  { customAnimeList := [{ id := "1", hasTagalogDub := some false }],
    episodes :=
      [{ id := "e1", animeId := "1", title := "Episode 1", number := 1,
         iframeSrc := "", server2Url := "", hasTagalogDub := false, dateAdded := "D" },
       { id := "e2", animeId := "1", title := "Episode 2", number := 2,
         iframeSrc := "", server2Url := "", hasTagalogDub := false, dateAdded := "D" },
       { id := "e3", animeId := "1", title := "Episode 3", number := 3,
         iframeSrc := "", server2Url := "", hasTagalogDub := false, dateAdded := "D" }],
    scheduledAnime := [], animeCache := [] }

/-- Request without an explicit episode number, for the C8 witness. -/
def reqC8 : EpisodeReq :=
  { animeId := "1", title := none, number := none, iframeSrc := some "http://x",
    server2Url := none, hasTagalogDub := false }

/-- Witness for C8 at the spec's example `{1,2,3}`. -/
theorem addEpisode_auto_number_witness :
    ∃ ep, (addEpisode stC8 reqC8 "100" "T" true true).2.1 = .created ep ∧
      (((stC8.episodes.filter fun e => e.animeId == reqC8.animeId).map fun e => e.number) = [] →
        ep.number = 1) ∧
      (((stC8.episodes.filter fun e => e.animeId == reqC8.animeId).map fun e => e.number) ≠ [] →
        ∃ m, m ∈ ((stC8.episodes.filter fun e => e.animeId == reqC8.animeId).map fun e => e.number) ∧
          (∀ x ∈ ((stC8.episodes.filter fun e => e.animeId == reqC8.animeId).map fun e => e.number),
            x ≤ m) ∧
          ep.number = m + 1) :=
  addEpisode_auto_number stC8 reqC8 "100" "T" true true (by decide) rfl rfl

/-- C9 (confirmed).  `GET /api/export` followed by `POST /api/import` of
its own output (first revision, lines 873-928) is accepted when the three
writes succeed, reproduces the three collections exactly, and leaves the
metadata cache empty. -/
theorem export_import_round_trip (st : ServerState) (nowIso : String)
    (w1 w2 w3 : Bool) (h1 : w1 = true) (h2 : w2 = true) (h3 : w3 = true) :
    (importAll st (exportAll st nowIso) w1 w2 w3).1.customAnimeList = st.customAnimeList ∧
    (importAll st (exportAll st nowIso) w1 w2 w3).1.episodes = st.episodes ∧
    (importAll st (exportAll st nowIso) w1 w2 w3).1.scheduledAnime = st.scheduledAnime ∧
    (importAll st (exportAll st nowIso) w1 w2 w3).1.animeCache = [] ∧
    (importAll st (exportAll st nowIso) w1 w2 w3).2 =
      .ok st.customAnimeList.length st.episodes.length st.scheduledAnime.length := by
  subst h1 h2 h3
  simp [importAll, exportAll]

/-- Fixture for the C9 witness: a state with data in every collection and a
nonempty cache. -/
def stC9 : ServerState :=
  { customAnimeList := [{ id := "1", hasTagalogDub := some true }],
    episodes :=
      [{ id := "e1", animeId := "1", title := "Episode 1", number := 1,
         iframeSrc := "u", server2Url := "", hasTagalogDub := true, dateAdded := "D" }],
    scheduledAnime :=
      [{ id := "s1", animeId := "1", title := "T", thumbnail := "U",
         releaseDate := "2030-01-01", notes := "", hasTagalogDub := false,
         dateAdded := "D" }],
    animeCache := ["1"] }

/-- Witness for C9. -/
theorem export_import_round_trip_witness :
    (importAll stC9 (exportAll stC9 "E") true true true).1.customAnimeList = stC9.customAnimeList ∧
    (importAll stC9 (exportAll stC9 "E") true true true).1.episodes = stC9.episodes ∧
    (importAll stC9 (exportAll stC9 "E") true true true).1.scheduledAnime = stC9.scheduledAnime ∧
    (importAll stC9 (exportAll stC9 "E") true true true).1.animeCache = [] ∧
    (importAll stC9 (exportAll stC9 "E") true true true).2 =
      .ok stC9.customAnimeList.length stC9.episodes.length stC9.scheduledAnime.length :=
  export_import_round_trip stC9 "E" true true true rfl rfl rfl

/-- C2 (corrected).  After the first revision's `removeAnime`
(`DELETE /api/anime/:id`, lines 783-808), zero episodes, zero scheduled
releases and zero anime entries with the given id remain, and the number of
episode records removed from the collection equals the number N that
referenced the id.  (The handler's response carries only a message — no
removed-episode count is reported; and the third revision's handler does
not touch the scheduled collection at all: see the counterexample.) -/
theorem removeAnime_cascade (st : ServerState) (animeId : String)
    (w1 w2 w3 : Bool) :
    ((removeAnime st animeId w1 w2 w3).1.episodes.countP
        fun e => e.animeId == animeId) = 0 ∧
    ((removeAnime st animeId w1 w2 w3).1.scheduledAnime.countP
        fun s => s.animeId == animeId) = 0 ∧
    ((removeAnime st animeId w1 w2 w3).1.customAnimeList.countP
        fun a => a.id == animeId) = 0 ∧
    st.episodes.length =
      (removeAnime st animeId w1 w2 w3).1.episodes.length +
        (st.episodes.countP fun e => e.animeId == animeId) := by
  refine ⟨countP_filter_not _ _, countP_filter_not _ _, countP_filter_not _ _, ?_⟩
  exact length_filter_not_add_countP st.episodes fun e => e.animeId == animeId

/-- Fixture for C2: one tracked anime `"1"` with two episodes and one
scheduled release referencing it. -/
def stC2 : ServerState :=
  { customAnimeList := [{ id := "1", hasTagalogDub := some false }],
    episodes :=
      [{ id := "e1", animeId := "1", title := "Episode 1", number := 1,
         iframeSrc := "", server2Url := "", hasTagalogDub := false, dateAdded := "D" },
       { id := "e2", animeId := "1", title := "Episode 2", number := 2,
         iframeSrc := "", server2Url := "", hasTagalogDub := false, dateAdded := "D" }],
    scheduledAnime :=
      [{ id := "s1", animeId := "1", title := "T", thumbnail := "U",
         releaseDate := "2030-01-01", notes := "", hasTagalogDub := false,
         dateAdded := "D" }],
    animeCache := [] }

/-- Third-revision fixture for C2: anime `"1"` with one episode and one
scheduled entry referencing it. -/
def stC2v3 : StateV3 :=
  { customAnimeList := [{ id := "1" }],
    episodes :=
      [{ id := "e1", animeId := "1", title := "Episode 1", number := 1,
         iframeSrc := "", server2Url := "", hasTagalogDub := false, dateAdded := "D" }],
    scheduledAnime :=
      [{ id := "s1", anilistId := "1", title := "T", thumbnail := "U",
         scheduledDate := "2030-01-01", customNote := "", dateAdded := "D" }] }

/-- C2 counterexample:  Removing anime `"1"` (which has N = 2 episodes)
succeeds, but the response body has no `removedEpisodeCount` field — it
carries only the success message — so no removed-episode count equal to N
is reported; and the third revision's `DELETE /api/anime/:id` leaves the
scheduled entry referencing `"1"` in place. -/
theorem removeAnime_count_not_reported :
    removeAnimeResponse (removeAnime stC2 "1" true true true).2
        "removedEpisodeCount" = none ∧
    (removeAnime stC2 "1" true true true).2 = .ok ∧
    ((removeAnime_v3 stC2v3 "1" true true).1.scheduledAnime.countP
        fun s => s.anilistId == "1") = 1 := by decide

/-- C6 (corrected).  The first revision's `DELETE /api/anime/:id` has no
not-found check: it filters all three collections unconditionally and
reports success whenever the writes succeed.  For an id that no collection
references, the state is returned unchanged with the success response —
never a NotFound error. -/
theorem removeAnime_untracked (st : ServerState) (animeId : String)
    (w1 w2 w3 : Bool)
    (ha : ∀ a ∈ st.customAnimeList, a.id ≠ animeId)
    (he : ∀ e ∈ st.episodes, e.animeId ≠ animeId)
    (hs : ∀ s ∈ st.scheduledAnime, s.animeId ≠ animeId)
    (hc : ∀ k ∈ st.animeCache, k ≠ animeId)
    (h1 : w1 = true) (h2 : w2 = true) (h3 : w3 = true) :
    removeAnime st animeId w1 w2 w3 = (st, .ok) := by
  subst h1 h2 h3
  have e1 : st.customAnimeList.filter (fun a => !(a.id == animeId)) = st.customAnimeList := by
    rw [List.filter_eq_self]
    intro a haa
    simp only [Bool.not_eq_true', beq_eq_false_iff_ne, ne_eq]
    exact ha a haa
  have e2 : st.episodes.filter (fun e => !(e.animeId == animeId)) = st.episodes := by
    rw [List.filter_eq_self]
    intro e hee
    simp only [Bool.not_eq_true', beq_eq_false_iff_ne, ne_eq]
    exact he e hee
  have e3 : st.scheduledAnime.filter (fun s => !(s.animeId == animeId)) = st.scheduledAnime := by
    rw [List.filter_eq_self]
    intro s hss
    simp only [Bool.not_eq_true', beq_eq_false_iff_ne, ne_eq]
    exact hs s hss
  have e4 : st.animeCache.filter (fun k => !(k == animeId)) = st.animeCache := by
    rw [List.filter_eq_self]
    intro k hkk
    simp only [Bool.not_eq_true', beq_eq_false_iff_ne, ne_eq]
    exact hc k hkk
  unfold removeAnime
  rw [e1, e2, e3, e4]
  rfl

/-- Fixture for C6: the anime collection tracks only `"7"`; the id `"5"`
is untracked and referenced nowhere. -/
def stC6 : ServerState :=
  { customAnimeList := [{ id := "7", hasTagalogDub := some false }],
    episodes := [], scheduledAnime := [], animeCache := [] }

/-- Witness for C6 at an untracked id. -/
theorem removeAnime_untracked_witness :
    removeAnime stC6 "5" true true true = (stC6, .ok) :=
  removeAnime_untracked stC6 "5" true true true (by decide) (by decide)
    (by decide) (by decide) rfl rfl rfl

/-- C6 counterexample:  Deleting the untracked id `"5"` answers the
200 success message, not a NotFound error: the claim's required failure
does not exist in the code. -/
theorem removeAnime_untracked_success :
    (removeAnime stC6 "5" true true true).2 = .ok ∧
    removeAnimeResponse (removeAnime stC6 "5" true true true).2 "error" = none ∧
    removeAnimeResponse (removeAnime stC6 "5" true true true).2 "message" =
      some "Anime and associated data removed successfully" := by decide

/-- C5 (corrected).  The first revision's `POST /api/episodes` performs
only the tracked-anime check: an untracked `animeId` yields the 404 and
leaves the state unchanged, and for a tracked `animeId` the episode is
always created (when the write succeeds) — an absent `iframeSrc` is
silently defaulted to `""` (no MissingField error exists) and an explicit
episode number is taken as-is even when it collides with an existing
episode of the same anime (no DuplicateNumber error exists). -/
theorem addEpisode_validation (st : ServerState) (req : EpisodeReq)
    (nowId nowIso : String) (wEp wAnime : Bool) :
    ((st.customAnimeList.any fun a => a.id == req.animeId) = false →
      addEpisode st req nowId nowIso wEp wAnime = (st, .notFound, [])) ∧
    ((st.customAnimeList.any fun a => a.id == req.animeId) = true → wEp = true →
      ∃ ep, (addEpisode st req nowId nowIso wEp wAnime).2.1 = .created ep ∧
        ep.iframeSrc = jsOrStr req.iframeSrc "" ∧
        (∀ n, req.number = some n → n ≠ 0 → ep.number = n) ∧
        (addEpisode st req nowId nowIso wEp wAnime).1.episodes =
          st.episodes ++ [ep]) := by
  constructor
  · intro hfalse
    unfold addEpisode
    rw [hfalse]
    rfl
  · intro htracked hwEp
    subst hwEp
    refine ⟨({ id := nowId, animeId := req.animeId,
               title := jsOrStr req.title
                 ("Episode " ++
                   toString (nextEpisodeNumber st.episodes req.animeId req.number)),
               number := nextEpisodeNumber st.episodes req.animeId req.number,
               iframeSrc := jsOrStr req.iframeSrc "",
               server2Url := jsOrStr req.server2Url "",
               hasTagalogDub := req.hasTagalogDub,
               dateAdded := nowIso } : Episode),
      ?_, rfl, ?_, ?_⟩
    · unfold addEpisode
      rw [htracked]
      rcases Bool.eq_false_or_eq_true req.hasTagalogDub with hd | hd <;> simp [hd]
    · intro n hn hn0
      show nextEpisodeNumber st.episodes req.animeId req.number = n
      rw [hn]
      unfold nextEpisodeNumber jsOrNum
      simp [hn0]
    · unfold addEpisode
      rw [htracked]
      rcases Bool.eq_false_or_eq_true req.hasTagalogDub with hd | hd <;> simp [hd]

/-- Fixture for C5: anime `"1"` already has an episode numbered 1; the
request supplies the colliding explicit number 1 and no `iframeSrc`. -/
def stC5 : ServerState :=
  { customAnimeList := [{ id := "1", hasTagalogDub := some false }],
    episodes :=
      [{ id := "e1", animeId := "1", title := "Episode 1", number := 1,
         iframeSrc := "u", server2Url := "", hasTagalogDub := false, dateAdded := "D" }],
    scheduledAnime := [], animeCache := [] }

/-- Request with a colliding explicit number and no link field, for C5. -/
def reqC5 : EpisodeReq :=
  { animeId := "1", title := none, number := some 1, iframeSrc := none,
    server2Url := none, hasTagalogDub := false }

/-- Witness for C5 (tracked-anime branch). -/
theorem addEpisode_validation_witness :
    ∃ ep, (addEpisode stC5 reqC5 "100" "T" true true).2.1 = .created ep ∧
      ep.iframeSrc = jsOrStr reqC5.iframeSrc "" ∧
      (∀ n, reqC5.number = some n → n ≠ 0 → ep.number = n) ∧
      (addEpisode stC5 reqC5 "100" "T" true true).1.episodes =
        stC5.episodes ++ [ep] :=
  (addEpisode_validation stC5 reqC5 "100" "T" true true).2 (by decide) rfl

/-- C5 counterexample:  With anime `"1"` already holding episode
number 1, a request with the explicit number 1 and no streaming-link field
is accepted (201): the stored episode has `iframeSrc = ""` and the
collection now holds two episodes numbered 1 for that anime — neither the
MissingField nor the DuplicateNumber failure the claim requires occurs. -/
theorem addEpisode_accepts_invalid :
    (addEpisode stC5 reqC5 "100" "T" true true).2.1 =
      .created { id := "100", animeId := "1", title := "Episode 1", number := 1,
                 iframeSrc := "", server2Url := "", hasTagalogDub := false,
                 dateAdded := "T" } ∧
    ((addEpisode stC5 reqC5 "100" "T" true true).1.episodes.countP
        fun e => e.animeId == "1" && e.number == 1) = 2 := by decide

/-- The anime collection keeps pairwise-distinct `id`s. -/
def idsNodup (l : List AnimeEntry) : Prop := (l.map fun a => a.id).Nodup

instance (l : List AnimeEntry) : Decidable (idsNodup l) := by
  unfold idsNodup; infer_instance

/-- A single first-revision `addAnime` call preserves id-uniqueness: the
push is guarded by the `some(a => a.id === anilistId)` duplicate check. -/
theorem addAnime_preserves_idsNodup (st : ServerState) (anilistId : Option String)
    (dub fetchOk writeOk : Bool) (h : idsNodup st.customAnimeList) :
    idsNodup (addAnime st anilistId dub fetchOk writeOk).1.customAnimeList := by
  rcases anilistId with _ | aid
  · exact h
  · by_cases he : aid = ""
    · simp only [addAnime, he, if_true]
      exact h
    · by_cases hdup : (st.customAnimeList.any fun a => a.id == aid) = true
      · simp only [addAnime, he, if_false, hdup, if_true]
        exact h
      · have hany : (st.customAnimeList.any fun a => a.id == aid) = false :=
          Bool.eq_false_iff.mpr hdup
        have hids : ∀ x ∈ st.customAnimeList, x.id ≠ aid := by
          intro x hx
          have hx2 := List.any_eq_false.mp hany x hx
          exact fun hc => hx2 (by rw [hc]; exact beq_self_eq_true aid)
        have hnew : idsNodup (st.customAnimeList ++
            [{ id := aid, hasTagalogDub := some dub }]) := by
          unfold idsNodup
          rw [List.map_append, List.nodup_append]
          refine ⟨h, List.nodup_singleton _, ?_⟩
          intro b hb hb2
          rcases List.mem_map.mp hb with ⟨x, hx, rfl⟩
          have : x.id = aid := by
            simpa using hb2
          exact hids x hx this
        by_cases hf : fetchOk
        · by_cases hw : writeOk <;>
            simp only [addAnime, he, if_false, hdup, hany, Bool.not_false,
              hf, hw, if_true, Bool.not_true, Bool.false_eq_true] <;>
            simpa using hnew
        · have hf' : fetchOk = false := Bool.eq_false_iff.mpr hf
          simp only [addAnime, he, if_false, hdup, hany, hf', Bool.not_false, if_true]
          exact h

/-- Every sequence of first-revision `addAnime` calls preserves
id-uniqueness. -/
theorem runAddAnime_idsNodup (calls : List AddAnimeCall) (st : ServerState)
    (h : idsNodup st.customAnimeList) :
    idsNodup (runAddAnime st calls).customAnimeList := by
  induction calls generalizing st with
  | nil => exact h
  | cons c cs ih =>
    exact ih _ (addAnime_preserves_idsNodup st c.anilistId c.hasTagalogDub
      c.fetchOk c.writeOk h)

/-- C1 (corrected).  Across any sequence of first-revision `addAnime`
calls no two anime entries ever share an id, and the first revision answers
a second add of a tracked id with the duplicate error, leaving the state
unchanged.  The third revision, however, answers a second add of a tracked
id with a 200 (refreshing the entry) — it never reports a duplicate error —
though it also leaves the list unduplicated. -/
theorem addAnime_unique (st : ServerState) (calls : List AddAnimeCall)
    (aid : String) (dub fetchOk writeOk : Bool)
    (animeList : List AnimeEntry) (cacheKeys : List String)
    (h0 : idsNodup st.customAnimeList) (haid : aid ≠ "")
    (htracked : (st.customAnimeList.any fun a => a.id == aid) = true)
    (htracked3 : (animeList.any fun a => a.id == aid) = true) :
    idsNodup (runAddAnime st calls).customAnimeList ∧
    addAnime st (some aid) dub fetchOk writeOk = (st, .duplicate) ∧
    (addAnime_v3 animeList cacheKeys (some aid) fetchOk writeOk).1 = animeList ∧
    (fetchOk = true →
      (addAnime_v3 animeList cacheKeys (some aid) fetchOk writeOk).2.2 =
        .okExistingRefreshed) := by
  refine ⟨runAddAnime_idsNodup calls st h0, ?_, ?_, ?_⟩
  · simp only [addAnime, haid, if_false, htracked, if_true]
  · by_cases hf : fetchOk
    · simp [addAnime_v3, haid, htracked3, hf]
    · have hf' : fetchOk = false := Bool.eq_false_iff.mpr hf
      simp only [addAnime_v3, haid, if_false, htracked3, if_true, hf',
        Bool.false_eq_true]
      split <;> rfl
  · intro hf
    simp [addAnime_v3, haid, htracked3, hf]

/-- Fixture for C1: the anime collection tracks `"1"`. -/
def stC1 : ServerState :=
  { customAnimeList := [{ id := "1", hasTagalogDub := some false }],
    episodes := [], scheduledAnime := [], animeCache := [] }

/-- Two attempts to add `"2"`, for the C1 witness's call sequence. -/
def callsC1 : List AddAnimeCall :=
  [{ anilistId := some "2", hasTagalogDub := false, fetchOk := true, writeOk := true },
   { anilistId := some "2", hasTagalogDub := false, fetchOk := true, writeOk := true }]

/-- Witness for C1. -/
theorem addAnime_unique_witness :
    idsNodup (runAddAnime stC1 callsC1).customAnimeList ∧
    addAnime stC1 (some "1") false true true = (stC1, .duplicate) ∧
    (addAnime_v3 stC1.customAnimeList [] (some "1") true true).1 =
      stC1.customAnimeList ∧
    (true = true →
      (addAnime_v3 stC1.customAnimeList [] (some "1") true true).2.2 =
        .okExistingRefreshed) :=
  addAnime_unique stC1 callsC1 "1" false true true stC1.customAnimeList []
    (by decide) (by decide) (by decide) (by decide)

/-- C1 counterexample:  In the third revision a second add of the
already-tracked id `"1"` succeeds with a 2xx response (the refreshed
existing entry) instead of returning the DuplicateKey error the claim
requires. -/
theorem addAnime_v3_second_add_succeeds :
    (addAnime_v3 [{ id := "1" }] [] (some "1") true true).2.2 =
      .okExistingRefreshed ∧
    (addAnime_v3 [{ id := "1" }] [] (some "1") true true).2.2.isSuccess = true := by
  decide

/-- Replacing one element in place preserves the list length. -/
theorem replaceFirstById_length (l : List SchedV3) (tid : String)
    (entry : SchedV3) : (replaceFirstById l tid entry).length = l.length := by
  induction l with
  | nil => rfl
  | cons s rest ih =>
    by_cases h : (s.id == tid) = true <;> simp [replaceFirstById, h, ih]

/-- If some element of the list carries the target id, the replacement
entry is a member of the result. -/
theorem replaceFirstById_mem (l : List SchedV3) (tid : String)
    (entry : SchedV3) (h : ∃ s ∈ l, (s.id == tid) = true) :
    entry ∈ replaceFirstById l tid entry := by
  induction l with
  | nil => rcases h with ⟨s, hs, _⟩; cases hs
  | cons s rest ih =>
    by_cases hsid : (s.id == tid) = true
    · simp [replaceFirstById, hsid]
    · rcases h with ⟨x, hx, hxid⟩
      rcases List.mem_cons.mp hx with rfl | hx'
      · exact absurd hxid hsid
      · simp only [replaceFirstById, hsid, if_false]
        exact List.mem_cons_of_mem s (ih ⟨x, hx', hxid⟩)

/-- With pairwise-distinct ids, replacing the entry found for a source id
by another entry for the same source id preserves every per-source count:
the upsert of the third revision's `POST /api/scheduled` rewrites in place
rather than growing the collection. -/
theorem countP_replaceFirstById (l : List SchedV3) (aid : String)
    (e entry : SchedV3) (hnodup : (l.map fun s => s.id).Nodup)
    (hfind : l.find? (fun a => a.anilistId == aid) = some e)
    (hentry : entry.anilistId = aid) (b : String) :
    ((replaceFirstById l e.id entry).countP fun s => s.anilistId == b) =
      (l.countP fun s => s.anilistId == b) := by
  induction l with
  | nil => cases hfind
  | cons s rest ih =>
    rw [List.map_cons] at hnodup
    rcases List.nodup_cons.mp hnodup with ⟨hsid, hrest⟩
    by_cases hs : ((fun a => a.anilistId == aid) s) = true
    · have hse : e = s := by
        rw [List.find?_cons_of_pos rest hs] at hfind
        exact (Option.some_inj.mp hfind).symm
      subst hse
      simp only [replaceFirstById, beq_self_eq_true, if_true, List.countP_cons]
      have hsa : e.anilistId = aid := by simpa using hs
      rw [hentry, hsa]
    · have hfind' : rest.find? (fun a => a.anilistId == aid) = some e := by
        rwa [List.find?_cons_of_neg rest hs] at hfind
      have hmem : e ∈ rest := List.mem_of_find?_eq_some hfind'
      have hne : (s.id == e.id) = false := by
        rw [beq_eq_false_iff_ne]
        intro hc
        exact hsid (hc ▸ List.mem_map_of_mem (fun x => x.id) hmem)
      simp only [replaceFirstById, hne, Bool.false_eq_true, if_false,
        List.countP_cons]
      rw [ih hrest hfind']

/-- C3 (corrected).  The third revision's `POST /api/scheduled` upserts
by `anilistId`: assuming pairwise-distinct entry ids and at most one entry
per source id, a create/update keeps at most one entry per source id, and
when an entry for the source id already exists the handler rewrites it in
place — same collection length, entry keeping its old `id` with the new
`scheduledDate`.  (The first revision's handler instead appends
unconditionally, and no code path removes an entry whose date is cleared
or moved into the past: see the counterexample.) -/
theorem postScheduled_v3_upsert (scheduled : List SchedV3) (aid sd : String)
    (customNote : Option String) (dateValid fetchOk : Bool)
    (title thumbnail nowId nowIso : String) (writeOk : Bool)
    (hnodup : (scheduled.map fun s => s.id).Nodup)
    (hone : ∀ b, (scheduled.countP fun s => s.anilistId == b) ≤ 1)
    (haid : aid ≠ "") (hsd : sd ≠ "")
    (hdv : dateValid = true) (hf : fetchOk = true) (hw : writeOk = true) :
    (∀ b, ((postScheduled_v3 scheduled (some aid) (some sd) customNote dateValid
        fetchOk title thumbnail nowId nowIso writeOk).1.countP
          fun s => s.anilistId == b) ≤ 1) ∧
    (∀ e, scheduled.find? (fun a => a.anilistId == aid) = some e →
      (postScheduled_v3 scheduled (some aid) (some sd) customNote dateValid
          fetchOk title thumbnail nowId nowIso writeOk).1.length =
        scheduled.length ∧
      ∃ ne ∈ (postScheduled_v3 scheduled (some aid) (some sd) customNote
          dateValid fetchOk title thumbnail nowId nowIso writeOk).1,
        ne.id = e.id ∧ ne.anilistId = aid ∧ ne.scheduledDate = sd) := by
  subst hdv hf hw
  have hred : postScheduled_v3 scheduled (some aid) (some sd) customNote true
      true title thumbnail nowId nowIso true =
      (match scheduled.find? (fun a => a.anilistId == aid) with
       | some e => replaceFirstById scheduled e.id
           { id := e.id, anilistId := aid, title := title,
             thumbnail := thumbnail, scheduledDate := sd,
             customNote := jsOrStr customNote "", dateAdded := nowIso }
       | none => scheduled ++
           [{ id := nowId, anilistId := aid, title := title,
              thumbnail := thumbnail, scheduledDate := sd,
              customNote := jsOrStr customNote "", dateAdded := nowIso }],
       .created) := by
    unfold postScheduled_v3
    simp only [haid, if_false, hsd, Bool.not_true, Bool.false_eq_true, if_true]
    cases scheduled.find? (fun a => a.anilistId == aid) <;> rfl
  constructor
  · intro b
    rw [hred]
    cases hfind : scheduled.find? (fun a => a.anilistId == aid) with
    | some e =>
      simp only [hfind]
      rw [countP_replaceFirstById scheduled aid e _ hnodup hfind rfl b]
      exact hone b
    | none =>
      simp only [hfind, List.countP_append, List.countP_cons, List.countP_nil]
      by_cases hb : aid = b
      · subst hb
        have hzero : (scheduled.countP fun s => s.anilistId == aid) = 0 := by
          rw [List.countP_eq_zero]
          intro a ha
          exact List.find?_eq_none.mp hfind a ha
        simp [hzero]
      · have hab : (aid == b) = false := beq_eq_false_iff_ne.mpr hb
        simp only [hab, Bool.false_eq_true, if_false, Nat.add_zero]
        exact hone b
  · intro e hfind
    rw [hred]
    simp only [hfind]
    refine ⟨replaceFirstById_length _ _ _, ?_⟩
    refine ⟨{ id := e.id, anilistId := aid, title := title,
              thumbnail := thumbnail, scheduledDate := sd,
              customNote := jsOrStr customNote "",
              dateAdded := nowIso }, ?_, rfl, rfl, rfl⟩
    exact replaceFirstById_mem scheduled e.id _
      ⟨e, List.mem_of_find?_eq_some hfind, beq_self_eq_true e.id⟩

/-- Fixture for C3: one scheduled entry for source `"1"`. -/
def schedListC3 : List SchedV3 :=
  [{ id := "10", anilistId := "1", title := "T", thumbnail := "U",
     scheduledDate := "2030-01-01", customNote := "", dateAdded := "D" }]

/-- Witness for C3: re-posting source `"1"` with a new date updates the
single entry in place. -/
theorem postScheduled_v3_upsert_witness :
    (∀ b, ((postScheduled_v3 schedListC3 (some "1") (some "2031-02-02") none
        true true "T" "U" "99" "I" true).1.countP
          fun s => s.anilistId == b) ≤ 1) ∧
    (∀ e, schedListC3.find? (fun a => a.anilistId == "1") = some e →
      (postScheduled_v3 schedListC3 (some "1") (some "2031-02-02") none true
          true "T" "U" "99" "I" true).1.length = schedListC3.length ∧
      ∃ ne ∈ (postScheduled_v3 schedListC3 (some "1") (some "2031-02-02") none
          true true "T" "U" "99" "I" true).1,
        ne.id = e.id ∧ ne.anilistId = "1" ∧ ne.scheduledDate = "2031-02-02") :=
  postScheduled_v3_upsert schedListC3 "1" "2031-02-02" none true true
    "T" "U" "99" "I" true (by decide) (fun b => List.countP_le_length _)
    (by decide) (by decide) rfl rfl rfl

/-- The empty first-revision state, start of the C3 counterexample. -/
def stC3 : ServerState :=
  { customAnimeList := [], episodes := [], scheduledAnime := [], animeCache := [] }

/-- C3 counterexample:  In the first revision, two `POST /api/scheduled`
requests for the same source id `"1"` append two distinct records for that
source — the collection then holds two active entries for one
(type, sourceId), violating the claimed at-most-one invariant (and showing
the second create did not update in place). -/
theorem postScheduled_appends_duplicate :
    (((postScheduled (postScheduled stC3 (some "1") (some "2030-01-01") none
        false true true "T" "U" "10" "I" true).1 (some "1")
        (some "2030-01-01") none false true true "T" "U" "11" "I" true).1
      ).scheduledAnime.countP fun s => s.animeId == "1") = 2 := by decide

/-- C4 (corrected).  With the first revision's `writeData` (backup +
temp file + rename), a simulated failure after the backup was taken — in
the temp-file write or in the rename — leaves the backing file holding the
previous content unchanged, and the failure is reported as `false` (the
error is caught, not rethrown).  (The third revision's in-place `writeData`
does not have this property: see the counterexample.) -/
theorem writeData_failure_preserves_file (fs : FileState) (content : String)
    (phase : WritePhase) (prev : String)
    (hmain : fs.main = some prev)
    (hfail : (writeData fs content phase).2 = false) :
    (writeData fs content phase).1.main = some prev ∧
    (writeData fs content phase).2 = false := by
  refine ⟨?_, hfail⟩
  cases phase with
  | complete => simp [writeData] at hfail
  | failAtTempWrite p => simp [writeData, restoreFromBackup, hmain]
  | failAtRename => simp [writeData, restoreFromBackup, hmain]

/-- Witness for C4: a failure at the rename step leaves `"OLD"` intact. -/
theorem writeData_failure_preserves_file_witness :
    (writeData { main := some "OLD", backup := none, temp := none } "NEW"
        .failAtRename).1.main = some "OLD" ∧
    (writeData { main := some "OLD", backup := none, temp := none } "NEW"
        .failAtRename).2 = false :=
  writeData_failure_preserves_file
    { main := some "OLD", backup := none, temp := none } "NEW"
    .failAtRename "OLD" rfl (by decide)

/-- C4 counterexample:  The third revision's `writeData` writes the
target in place; a mid-write failure (here after 3 characters of
`"NEWDATA"`) leaves the backing file half-written (`"NEW"`), not the
previous `"OLD"` content the claim requires — though the failure is still
reported as `false`. -/
theorem writeData_v3_half_write :
    (writeData_v3 { main := some "OLD", backup := none, temp := none }
        "NEWDATA" (some 3)).1.main = some "NEW" ∧
    some "NEW" ≠ some "OLD" ∧
    (writeData_v3 { main := some "OLD", backup := none, temp := none }
        "NEWDATA" (some 3)).2 = false := by decide

/-- Full behaviour of a successful lookup in `updateEpisodeById`: the
merged record has the route's id, patch fields overwrite, untouched fields
come from the (first-matching) old record, and the list keeps its length;
a `none` result means no record carries the id. -/
theorem updateEpisodeById_spec_aux (eps : List JsObj) (eid : String)
    (patch : JsObj) :
    (updateEpisodeById eps eid patch = none →
      ∀ e ∈ eps, e "id" ≠ some (.str eid)) ∧
    (∀ r, updateEpisodeById eps eid patch = some r →
      r.2 "id" = some (.str eid) ∧
      (∀ k, k ≠ "id" → ∀ v, patch k = some v → r.2 k = some v) ∧
      (∃ old, old ∈ eps ∧ old "id" = some (.str eid) ∧
        (∀ k, k ≠ "id" → patch k = none → r.2 k = old k)) ∧
      r.1.length = eps.length) := by
  induction eps with
  | nil =>
    refine ⟨fun _ e he => absurd he (List.not_mem_nil e), ?_⟩
    intro r h
    cases h
  | cons e rest ih =>
    by_cases hc : (e "id" == some (.str eid)) = true
    · have hcid : e "id" = some (.str eid) := by simpa using hc
      have hstep : updateEpisodeById (e :: rest) eid patch =
          some (mergePatch e patch eid :: rest, mergePatch e patch eid) := by
        simp [updateEpisodeById, hc]
      constructor
      · intro hnone
        rw [hstep] at hnone
        cases hnone
      · intro r h
        rw [hstep] at h
        have hr := Option.some_inj.mp h
        subst hr
        refine ⟨?_, ?_, ⟨e, List.mem_cons_self e rest, hcid, ?_⟩, rfl⟩
        · simp [mergePatch, withId]
        · intro k hk v hv
          simp [mergePatch, withId, spreadTwo, hk, hv]
        · intro k hk hpk
          simp [mergePatch, withId, spreadTwo, hk, hpk]
    · have hstep : updateEpisodeById (e :: rest) eid patch =
          match updateEpisodeById rest eid patch with
          | none => none
          | some (rest', m) => some (e :: rest', m) := by
        simp [updateEpisodeById, hc]
      constructor
      · intro hnone x hx
        rw [hstep] at hnone
        rcases List.mem_cons.mp hx with rfl | hx'
        · intro hxc
          exact hc (by rw [hxc]; exact beq_self_eq_true _)
        · cases hrec : updateEpisodeById rest eid patch with
          | none => exact (ih.1 hrec) x hx'
          | some p => rw [hrec] at hnone; cases hnone
      · intro r h
        rw [hstep] at h
        cases hrec : updateEpisodeById rest eid patch with
        | none => rw [hrec] at h; cases h
        | some p =>
          rw [hrec] at h
          have hr := Option.some_inj.mp h
          subst hr
          obtain ⟨h1, h2, ⟨old, hold, holdid, hpres⟩, hlen⟩ := ih.2 p hrec
          exact ⟨h1, h2, ⟨old, List.mem_cons_of_mem e hold, holdid, hpres⟩,
            by simpa using hlen⟩

/-- C7 (corrected).  The first revision's `PUT /api/episodes/:id` is a
merge-patch: an unknown id yields the 404 (no episode carries it), and on a
hit the stored record takes every patch field, keeps every other field of
the old record, and keeps its original `id` even when the patch supplies a
different one; the list length is unchanged.  (No `lastUpdated` timestamp
is stamped anywhere — see the counterexample.) -/
theorem updateEpisodeById_merge (eps : List JsObj) (eid : String)
    (patch : JsObj) :
    (updateEpisodeById eps eid patch = none →
      ∀ e ∈ eps, e "id" ≠ some (.str eid)) ∧
    (∀ r, updateEpisodeById eps eid patch = some r →
      r.2 "id" = some (.str eid) ∧
      (∀ k, k ≠ "id" → ∀ v, patch k = some v → r.2 k = some v) ∧
      (∃ old, old ∈ eps ∧ old "id" = some (.str eid) ∧
        (∀ k, k ≠ "id" → patch k = none → r.2 k = old k)) ∧
      r.1.length = eps.length) :=
  updateEpisodeById_spec_aux eps eid patch

/-- An episode object for the C7 fixtures: id `"e1"`, a title and a number,
no `lastUpdated` field. -/
def epObjC7 : JsObj := fun k =>
  if k = "id" then some (.str "e1")
  else if k = "title" then some (.str "Old title")
  else if k = "number" then some (.num 1)
  else none

/-- A patch replacing the title and trying to replace the id. -/
def patchC7 : JsObj := fun k =>
  if k = "title" then some (.str "New title")
  else if k = "id" then some (.str "evil")
  else none

/-- Witness for C7: patched title overwrites, number survives, and the id
keeps its original value despite the patch's `id := "evil"`. -/
theorem updateEpisodeById_merge_witness :
    mergePatch epObjC7 patchC7 "e1" "id" = some (JVal.str "e1") ∧
    mergePatch epObjC7 patchC7 "e1" "title" = some (JVal.str "New title") ∧
    mergePatch epObjC7 patchC7 "e1" "number" = some (JVal.num 1) := by
  have h := (updateEpisodeById_merge [epObjC7] "e1" patchC7).2
    ([mergePatch epObjC7 patchC7 "e1"], mergePatch epObjC7 patchC7 "e1") rfl
  refine ⟨h.1, ?_, ?_⟩
  · exact h.2.1 "title" (by decide) (JVal.str "New title") rfl
  · obtain ⟨old, hold, _, hpres⟩ := h.2.2.1
    have hoe : old = epObjC7 := List.mem_singleton.mp hold
    subst hoe
    exact (hpres "number" (by decide) rfl).trans rfl

/-- C7 counterexample:  A successful update of a record without a
`lastUpdated` field, by a patch without one, produces a record still
without a `lastUpdated` field: no timestamp is stamped on update. -/
theorem updateEpisodeById_no_lastUpdated :
    ((updateEpisodeById [epObjC7] "e1" patchC7).map
        fun r => r.2 "lastUpdated") = some none := rfl

/-- Reduction of `putEpisode` once the episode lookup has hit. -/
theorem putEpisode_step (animeList : List AnimeEntry) (eps : List JsObj)
    (eid : String) (patch : JsObj) (wEp : Bool) (eps' : List JsObj)
    (merged : JsObj)
    (hrec : updateEpisodeById eps eid patch = some (eps', merged)) :
    putEpisode animeList eps eid patch wEp =
      some { customAnimeList :=
               if patch "hasTagalogDub" == some (.jbool true)
                  && !(merged "hasTagalogDub" == some (.jbool true)) then
                 match merged "animeId" with
                 | some (.str aid) => setDubTrue animeList aid
                 | _ => animeList
               else animeList,
             episodes := eps', record := merged, saved := wEp,
             dubPropagated :=
               patch "hasTagalogDub" == some (.jbool true)
                 && !(merged "hasTagalogDub" == some (.jbool true)) } := by
  unfold putEpisode
  rw [hrec]

/-- The dub-propagation branch of `PUT /api/episodes/:id` is dead code: its
guard tests the merged record's `hasTagalogDub`, which already equals the
patch's `true` whenever the first conjunct holds, so the parent anime list
is never touched by an episode update. -/
theorem putEpisode_never_updates_anime (animeList : List AnimeEntry)
    (eps : List JsObj) (eid : String) (patch : JsObj) (wEp : Bool)
    (r : PutEpisodeOutcome)
    (h : putEpisode animeList eps eid patch wEp = some r) :
    r.customAnimeList = animeList ∧ r.dubPropagated = false := by
  cases hrec : updateEpisodeById eps eid patch with
  | none =>
    unfold putEpisode at h
    rw [hrec] at h
    cases h
  | some p =>
    obtain ⟨eps', merged⟩ := p
    rw [putEpisode_step animeList eps eid patch wEp eps' merged hrec] at h
    have hr := Option.some_inj.mp h
    subst hr
    have hcond : (patch "hasTagalogDub" == some (.jbool true)
        && !(merged "hasTagalogDub" == some (.jbool true))) = false := by
      by_cases hp : (patch "hasTagalogDub" == some (JVal.jbool true)) = true
      · have hpv : patch "hasTagalogDub" = some (.jbool true) := by simpa using hp
        have hm : merged "hasTagalogDub" = some (.jbool true) :=
          ((updateEpisodeById_spec_aux eps eid patch).2 (eps', merged) hrec).2.1
            "hasTagalogDub" (by decide) _ hpv
        rw [hm]
        simp
      · have hp' : (patch "hasTagalogDub" == some (JVal.jbool true)) = false :=
          Bool.eq_false_iff.mpr hp
        rw [hp']
        rfl
    constructor <;> simp [hcond]

/-- Anime list for the C10 failing input: the parent's dub flag is `false`. -/
def animeListC10 : List AnimeEntry := [{ id := "1", hasTagalogDub := some false }]

/-- Episode object for the C10 failing input: dub flag not yet `true`. -/
def epObjC10 : JsObj := fun k =>
  if k = "id" then some (.str "e1")
  else if k = "animeId" then some (.str "1")
  else if k = "hasTagalogDub" then some (.jbool false)
  else none

/-- Patch setting the dub flag from `false` to `true`. -/
def patchC10 : JsObj := fun k =>
  if k = "hasTagalogDub" then some (.jbool true) else none

/-- First-revision state for the C10 POST half. -/
def stC10 : ServerState :=
  { customAnimeList := [{ id := "1", hasTagalogDub := some false }],
    episodes := [], scheduledAnime := [], animeCache := [] }

/-- New-episode request with the dub flag, for the C10 POST half. -/
def reqC10 : EpisodeReq :=
  { animeId := "1", title := none, number := none, iframeSrc := none,
    server2Url := none, hasTagalogDub := true }

/-- C10 (code_bug).  Updating episode `"e1"` from `hasTagalogDub`
`false` to `true` via `PUT /api/episodes/:id` leaves the parent anime's
flag at `false` and never runs the propagation branch (the guard reads the
post-merge value, contradicting the source's own comment "Check if this is
setting Tagalog dub for the first time"), while `POST /api/episodes` with
the flag does set the parent's flag to `true` and writes the anime file. -/
theorem dub_propagation_put_vs_post :
    ((putEpisode animeListC10 [epObjC10] "e1" patchC10 true).map
        fun r => (r.customAnimeList, r.dubPropagated, r.saved)) =
      some (animeListC10, false, true) ∧
    animeListC10 = [{ id := "1", hasTagalogDub := some false }] ∧
    (addEpisode stC10 reqC10 "100" "T" true true).1.customAnimeList =
      [{ id := "1", hasTagalogDub := some true }] ∧
    FileTag.customAnimeFile ∈ (addEpisode stC10 reqC10 "100" "T" true true).2.2 :=
  ⟨rfl, rfl, by decide, by decide⟩
